import Mathlib

/-!
Shallow embedding of the catalog manager in `src/main.py` (classes `Book` and
`Library`).  Python strings are Lean `String`s; Python ints are Lean `Int`s;
the JSON file behind a `Library` is modelled by the structured document it
encodes (`Option (List Dict)`, `none` meaning the file does not exist), since
`json.dump`/`json.load` round-trip the lists of string/int-valued dicts used
here verbatim.  Python's `str.lower` is modelled by ASCII lowering on the
character list (`Char.toLower`), and `a in b` on strings by contiguous
sublist containment.
-/

namespace Effmob

/-- A Python value as it can occur in a book's persisted dict: the program
only stores ints and strings. -/
inductive PyVal where
  | int : Int → PyVal
  | str : String → PyVal
deriving DecidableEq, Repr

/-- A field-keyed representation (Python dict with string keys).  Keys are
unique in every dict this program builds or reads. -/
abbrev Dict := List (String × PyVal)

/-- Python dict lookup `data[k]`: first binding of the key, `KeyError` when
the key is absent. -/
def dictGet (data : Dict) (k : String) : Except String PyVal :=
  match data.find? (fun kv => kv.1 == k) with
  | some kv => Except.ok kv.2
  | none => Except.error ("KeyError: " ++ k)

/-- `Book.__init__` fields (src/main.py lines 16-21).  The default status
literal is the Russian string for "available". -/
structure Book where
  id : Int
  title : String
  author : String
  year : Int
  status : String
deriving DecidableEq, Repr

/-- The "available" value of the status domain (`"В наличии"` in the source). -/
def available : String := "В наличии"

/-- The "checked-out" value of the status domain (`"Выдана"` in the source). -/
def checkedOut : String := "Выдана"

/-- A `Book` as `Book.from_dict` actually builds it: the constructor call
`Book(data['id'], data['title'], data['author'], data['year'], data['status'])`
performs no shape checks, so each field holds whatever Python value the dict
carried. -/
structure RawBook where
  id : PyVal
  title : PyVal
  author : PyVal
  year : PyVal
  status : PyVal
deriving DecidableEq, Repr

/-- `Book.to_dict` (src/main.py lines 23-30). -/
def Book.to_dict (b : Book) : Dict :=
  [("id", PyVal.int b.id), ("title", PyVal.str b.title),
   ("author", PyVal.str b.author), ("year", PyVal.int b.year),
   ("status", PyVal.str b.status)]

/-- `Book.from_dict` (src/main.py lines 32-34): five key lookups evaluated
left to right, the first missing key raising `KeyError`; no validation of the
values' shapes. -/
def Book.from_dict (data : Dict) : Except String RawBook :=
  match dictGet data "id" with
  | Except.error e => Except.error e
  | Except.ok i =>
    match dictGet data "title" with
    | Except.error e => Except.error e
    | Except.ok t =>
      match dictGet data "author" with
      | Except.error e => Except.error e
      | Except.ok a =>
        match dictGet data "year" with
        | Except.error e => Except.error e
        | Except.ok y =>
          match dictGet data "status" with
          | Except.error e => Except.error e
          | Except.ok s => Except.ok ⟨i, t, a, y, s⟩

/-- Reads a `RawBook` back as a typed `Book` when every field has the shape
`to_dict` writes; `none` on any wrong shape. -/
def RawBook.toBook : RawBook → Option Book
  | ⟨PyVal.int i, PyVal.str t, PyVal.str a, PyVal.int y, PyVal.str s⟩ =>
      some ⟨i, t, a, y, s⟩
  | _ => none

/-- Python `str()` of a stored value: ints print in decimal (with a leading
minus for negatives), strings are themselves. -/
def pyStr : PyVal → String
  | PyVal.int i => toString i
  | PyVal.str s => s

/-- Model of Python `str.lower()` as a character list (ASCII lowering). -/
def pyLower (s : String) : List Char := s.data.map Char.toLower

/-- Does `hay` begin with `needle`? -/
def matchHere : List Char → List Char → Bool
  | [], _ => true
  | _ :: _, [] => false
  | n :: ns, h :: hs => n == h && matchHere ns hs

/-- Python `needle in hay` for strings: contiguous substring containment
(the empty needle is contained in everything). -/
def containsSub (needle : List Char) : List Char → Bool
  | [] => matchHere needle []
  | h :: hs => matchHere needle (h :: hs) || containsSub needle hs

/-- In-memory `Library` state (src/main.py lines 42-46): the list of books
plus the persisted document standing for the JSON file's content
(`none` = the file does not exist). -/
structure Library where
  books : List Book
  file : Option (List Dict)
deriving DecidableEq, Repr

/-- `Library.save_books` (src/main.py lines 59-62): overwrite the file with
the whole serialized sequence. -/
def save_books (s : Library) : Library :=
  { s with file := some (s.books.map Book.to_dict) }

/-- The list comprehension in `Library.load_books` (src/main.py line 57):
`Book.from_dict` element-wise, left to right, the first failure aborting
the load. -/
def load_list : List Dict → Except String (List RawBook)
  | [] => Except.ok []
  | d :: ds =>
    match Book.from_dict d with
    | Except.error e => Except.error e
    | Except.ok b =>
      match load_list ds with
      | Except.error e => Except.error e
      | Except.ok bs => Except.ok (b :: bs)

/-- `Library.load_books` (src/main.py lines 48-57): a missing file yields the
empty list, otherwise the document is deserialized element-wise. -/
def load_books : Option (List Dict) → Except String (List RawBook)
  | none => Except.ok []
  | some doc => load_list doc

/-- The id rule of `Library.add_book` (src/main.py line 67):
`self.books[-1].id + 1 if self.books else 1`. -/
def next_id (books : List Book) : Int :=
  match books.getLast? with
  | some b => b.id + 1
  | none => 1

/-- `Library.add_book` (src/main.py lines 64-75): id of the last book plus
one (1 on an empty list), append with default status, persist, confirmation
message. -/
def add_book (s : Library) (title author : String) (year : Int) :
    Library × String :=
  let new_id : Int := next_id s.books
  let new_book : Book :=
    { id := new_id, title := title, author := author, year := year,
      status := available }
  (save_books { s with books := s.books ++ [new_book] },
   "Книга \x27" ++ title ++ "\x27 добавлена с ID " ++ toString new_id ++ ".")

/-- `Library.remove_book` (src/main.py lines 77-88): rebuild the list without
every book of that id; persist and confirm only when the length shrank. -/
def remove_book (s : Library) (book_id : Int) : Library × String :=
  let before_remove := s.books.length
  let new_books := s.books.filter (fun book => book.id != book_id)
  if new_books.length < before_remove then
    (save_books { s with books := new_books },
     "Книга с ID " ++ toString book_id ++ " удалена.")
  else
    ({ s with books := new_books }, "Книга с таким ID не найдена.")

/-- Python `getattr(book, field)` for the five instance attributes set in
`Book.__init__`.  Any other name is outside this model: in Python it either
resolves a class attribute (a method or dunder such as `to_dict` or
`__class__`, whose `str()` embeds a runtime memory address, so the ensuing
match is not deterministic) or raises `AttributeError`; the model marks all
such names with an error token, and every theorem restricts the selector to
the five data attributes, never relying on this branch. -/
def Book.getattr (b : Book) (field : String) : Except String PyVal :=
  if field = "id" then Except.ok (PyVal.int b.id)
  else if field = "title" then Except.ok (PyVal.str b.title)
  else if field = "author" then Except.ok (PyVal.str b.author)
  else if field = "year" then Except.ok (PyVal.int b.year)
  else if field = "status" then Except.ok (PyVal.str b.status)
  else Except.error ("unmodelled attribute: " ++ field)

/-- The list comprehension in `Library.search_books` (src/main.py line 93),
element by element: `query.lower() in str(getattr(book, field)).lower()`,
with the first error from an unmodelled selector aborting the scan. -/
def search_filter (query field : String) : List Book → Except String (List Book)
  | [] => Except.ok []
  | book :: rest =>
    match Book.getattr book field with
    | Except.error e => Except.error e
    | Except.ok v =>
      match search_filter query field rest with
      | Except.error e => Except.error e
      | Except.ok tail =>
        Except.ok (if containsSub (pyLower query) (pyLower (pyStr v))
                   then book :: tail else tail)

/-- `Library.search_books` (src/main.py lines 90-94). -/
def search_books (s : Library) (query field : String) :
    Except String (List Book) :=
  search_filter query field s.books

/-- `Library.display_books` (src/main.py lines 96-99). -/
def display_books (s : Library) : List Book := s.books

/-- The loop body of `Library.update_status` (src/main.py lines 104-106):
set the status of the first book with the given id, leaving the rest of the
list as it was; `none` when no id matches. -/
def update_first (book_id : Int) (status : String) :
    List Book → Option (List Book)
  | [] => none
  | b :: bs =>
    if b.id == book_id then some ({ b with status := status } :: bs)
    else (update_first book_id status bs).map (fun l => b :: l)

/-- `Library.update_status` (src/main.py lines 101-110): on the first match
the status is set and the whole list persisted; otherwise nothing changes
and the not-found message is returned. -/
def update_status (s : Library) (book_id : Int) (status : String) :
    Library × String :=
  match update_first book_id status s.books with
  | some new_books =>
    (save_books { s with books := new_books },
     "Статус книги с ID " ++ toString book_id ++ " обновлён на \x27" ++
       status ++ "\x27.")
  | none => (s, "Книга с таким ID не найдена.")

/-- A sequence of `add_book` calls, applied in order. -/
def add_many (s : Library) : List (String × String × Int) → Library
  | [] => s
  | (t, a, y) :: rest => add_many (add_book s t a y).1 rest

/-- The id list `[1, 2, ..., n]` the spec expects after `n` creations from
an empty catalog. -/
def idSeq : Nat → List Int
  | 0 => []
  | n + 1 => idSeq n ++ [(n : Int) + 1]

/-- The per-book condition of the `search_books` comprehension, as a Boolean
predicate (false is never reached on the attribute names `getattr` accepts). -/
def matchesB (query field : String) (b : Book) : Bool :=
  match Book.getattr b field with
  | Except.ok v => containsSub (pyLower query) (pyLower (pyStr v))
  | Except.error _ => false

/-- The `RawBook` that `from_dict` recovers from `to_dict` output. -/
def rawOf (b : Book) : RawBook :=
  ⟨PyVal.int b.id, PyVal.str b.title, PyVal.str b.author, PyVal.int b.year,
   PyVal.str b.status⟩

/-- The five keys `from_dict` reads, in lookup order. -/
def requiredKeys : List String := ["id", "title", "author", "year", "status"]

/-- Did an `Except` computation succeed? -/
def exceptOk {ε α : Type} : Except ε α → Bool
  | Except.ok _ => true
  | Except.error _ => false

/-! ### Helper lemmas -/

theorem containsSub_nil (hay : List Char) : containsSub [] hay = true := by
  cases hay <;> simp [containsSub, matchHere]

theorem pyLower_empty : pyLower "" = [] := rfl

theorem remove_book_books (s : Library) (book_id : Int) :
    (remove_book s book_id).1.books =
      s.books.filter (fun b => b.id != book_id) := by
  simp only [remove_book]
  split <;> rfl

theorem update_first_found (book_id : Int) (status : String)
    (pre : List Book) (b : Book) (post : List Book)
    (hpre : pre.all (fun x => x.id != book_id) = true)
    (hb : b.id = book_id) :
    update_first book_id status (pre ++ b :: post) =
      some (pre ++ { b with status := status } :: post) := by
  induction pre with
  | nil => simp [update_first, hb]
  | cons p ps ih =>
    simp only [List.all_cons, Bool.and_eq_true, bne_iff_ne, ne_eq] at hpre
    simp [update_first, beq_iff_eq, hpre.1,
      ih (by simpa [List.all_eq_true, bne_iff_ne] using hpre.2)]

theorem update_first_none (book_id : Int) (status : String) (l : List Book)
    (h : l.all (fun x => x.id != book_id) = true) :
    update_first book_id status l = none := by
  induction l with
  | nil => rfl
  | cons p ps ih =>
    simp only [List.all_cons, Bool.and_eq_true, bne_iff_ne, ne_eq] at h
    simp [update_first, beq_iff_eq, h.1,
      ih (by simpa [List.all_eq_true, bne_iff_ne] using h.2)]

theorem update_status_found (s : Library) (book_id : Int) (status : String)
    (pre : List Book) (b : Book) (post : List Book)
    (hs : s.books = pre ++ b :: post)
    (hpre : pre.all (fun x => x.id != book_id) = true)
    (hb : b.id = book_id) :
    update_status s book_id status =
      ({ books := pre ++ { b with status := status } :: post,
         file := some ((pre ++ { b with status := status } :: post).map
           Book.to_dict) },
       "Статус книги с ID " ++ toString book_id ++ " обновлён на \x27" ++
         status ++ "\x27.") := by
  unfold update_status
  rw [hs, update_first_found book_id status pre b post hpre hb]
  rfl

theorem update_status_missing (s : Library) (book_id : Int) (status : String)
    (h : s.books.all (fun x => x.id != book_id) = true) :
    update_status s book_id status = (s, "Книга с таким ID не найдена.") := by
  unfold update_status
  rw [update_first_none book_id status s.books h]

theorem search_filter_valid (query field : String)
    (hf : field = "id" ∨ field = "title" ∨ field = "author" ∨
      field = "year" ∨ field = "status") (l : List Book) :
    search_filter query field l = Except.ok (l.filter (matchesB query field)) := by
  induction l with
  | nil => rfl
  | cons b rest ih =>
    rcases hf with h | h | h | h | h <;> subst h <;>
      simp [search_filter, Book.getattr, matchesB, ih, List.filter_cons]

theorem from_dict_to_dict (b : Book) :
    Book.from_dict (Book.to_dict b) = Except.ok (rawOf b) := rfl

theorem toBook_rawOf (b : Book) : RawBook.toBook (rawOf b) = some b := rfl

theorem load_list_map (l : List Book) :
    load_list (l.map Book.to_dict) = Except.ok (l.map rawOf) := by
  induction l with
  | nil => rfl
  | cons b rest ih => simp [load_list, from_dict_to_dict, ih]

theorem new_id_eq (books : List Book) (n : Nat)
    (h : books.map (fun b => b.id) = idSeq n) :
    next_id books = (n : Int) + 1 := by
  cases n with
  | zero =>
    have hnil : books = [] := by simpa [idSeq, List.map_eq_nil_iff] using h
    subst hnil
    simp [next_id]
  | succ n =>
    have hl : (books.map (fun b => b.id)).getLast? = some ((n : Int) + 1) := by
      rw [h]
      simp [idSeq]
    rw [List.getLast?_map] at hl
    rcases hg : books.getLast? with _ | b
    · rw [hg] at hl
      simp at hl
    · rw [hg] at hl
      have hb : b.id = (n : Int) + 1 := by simpa using hl
      unfold next_id
      rw [hg]
      show b.id + 1 = ((n + 1 : Nat) : Int) + 1
      rw [hb]
      push_cast
      ring

theorem add_many_ids (calls : List (String × String × Int)) :
    ∀ (s : Library) (n : Nat),
      s.books.map (fun b => b.id) = idSeq n →
      (add_many s calls).books.map (fun b => b.id) =
        idSeq (n + calls.length) := by
  induction calls with
  | nil =>
    intro s n h
    simpa [add_many] using h
  | cons c rest ih =>
    rcases c with ⟨t, a, y⟩
    intro s n h
    have hmap : (add_book s t a y).1.books.map (fun b => b.id) =
        idSeq (n + 1) := by
      have hbooks : (add_book s t a y).1.books =
          s.books ++ [⟨next_id s.books, t, a, y, available⟩] := rfl
      rw [hbooks, List.map_append, h, new_id_eq s.books n h]
      simp [idSeq]
    have hrest := ih (add_book s t a y).1 (n + 1) hmap
    have harith : n + 1 + rest.length = n + (rest.length + 1) := by omega
    rw [harith] at hrest
    simpa [add_many] using hrest

theorem dictGet_error (d : Dict) (k e : String)
    (h : dictGet d k = Except.error e) : e = "KeyError: " ++ k := by
  unfold dictGet at h
  rcases hf : d.find? (fun kv => kv.1 == k) with _ | kv <;> rw [hf] at h
  · cases h
    rfl
  · cases h

theorem exceptOk_ok {ε α : Type} (x : Except ε α) (h : exceptOk x = true) :
    ∃ v, x = Except.ok v := by
  cases x with
  | ok v => exact ⟨v, rfl⟩
  | error e => simp [exceptOk] at h

/-! ### Example data used by witnesses and counterexamples -/

/-- One-book catalog content used by the C1 theorems. -/
def bDune : Book := ⟨1, "Dune", "Herbert", 1965, available⟩

/-- Book with year 2020 used by the C3 witness. -/
def b2020 : Book := ⟨1, "A", "B", 2020, available⟩

/-- Book with year 1999 used by the C3 witness. -/
def b1999 : Book := ⟨2, "C", "D", 1999, available⟩

/-- One-book catalog content used by the C4 witness. -/
def bOne : Book := ⟨1, "X", "Y", 2000, available⟩

/-! ### Claims -/

/-- C1 (counterexample): on a one-book catalog, `search_books` with the empty
query over the `title` field returns the full catalog, not the empty list
(`"" in s` is true for every Python string `s`). -/
theorem c1_empty_query_counterexample :
    search_books ⟨[bDune], none⟩ "" "title" = Except.ok [bDune] ∧
      [bDune] ≠ ([] : List Book) :=
  ⟨rfl, by decide⟩

/-- C1 (amended): for every catalog state, `search_books` with the empty
query over any of the three valid fields returns the whole catalog (every
record matches, the empty string being a substring of every string); it is
the excluded CLI layer that rejects the empty query before the call. -/
theorem c1_empty_query_returns_catalog (s : Library) (field : String)
    (hf : field = "title" ∨ field = "author" ∨ field = "year") :
    search_books s "" field = Except.ok s.books := by
  have hf5 : field = "id" ∨ field = "title" ∨ field = "author" ∨
      field = "year" ∨ field = "status" := by tauto
  unfold search_books
  rw [search_filter_valid "" field hf5 s.books]
  congr 1
  apply List.filter_eq_self.mpr
  intro b hb
  rcases hf with h | h | h <;> subst h <;>
    simp [matchesB, Book.getattr, pyLower_empty, containsSub_nil]

/-- C1 (witness): the amended theorem at the one-book catalog. -/
theorem c1_empty_query_witness :
    ("title" = "title" ∨ "title" = "author" ∨ "title" = "year") ∧
      search_books ⟨[bDune], none⟩ "" "title" = Except.ok [bDune] :=
  ⟨Or.inl rfl,
   c1_empty_query_returns_catalog ⟨[bDune], none⟩ "title" (Or.inl rfl)⟩

/-- C2 (confirmed): `add_book` appends a record whose id is the id of the
last record in the sequence plus one (1 on the empty sequence, see
`next_id`), and from the empty catalog a sequence of creations assigns the
ids `1, 2, ..., n` in call order (`idSeq`). -/
theorem c2_id_assignment :
    (∀ (s : Library) (t a : String) (y : Int),
      (add_book s t a y).1.books =
        s.books ++ [⟨next_id s.books, t, a, y, available⟩]) ∧
    (∀ (f : Option (List Dict)) (calls : List (String × String × Int)),
      (add_many ⟨[], f⟩ calls).books.map (fun b => b.id) =
        idSeq calls.length) := by
  constructor
  · intro s t a y
    rfl
  · intro f calls
    have h := add_many_ids calls ⟨[], f⟩ 0 rfl
    simpa using h

/-- C3 (confirmed): for a field among title, author and year, `search_books`
succeeds and returns exactly the books whose field value, converted to text
and lowercased, contains the lowercased query as a contiguous substring
(`matchesB`), in the order of the underlying sequence. -/
theorem c3_search_semantics (s : Library) (query field : String)
    (hf : field = "title" ∨ field = "author" ∨ field = "year") :
    search_books s query field =
      Except.ok (s.books.filter (matchesB query field)) := by
  have hf5 : field = "id" ∨ field = "title" ∨ field = "author" ∨
      field = "year" ∨ field = "status" := by tauto
  exact search_filter_valid query field hf5 s.books

/-- C3 (witness): query "02" over the `year` field of a catalog with years
2020 and 1999 returns exactly the 2020 record — decimal substring matching,
not numeric comparison. -/
theorem c3_search_witness :
    ("year" = "title" ∨ "year" = "author" ∨ "year" = "year") ∧
      search_books ⟨[b2020, b1999], none⟩ "02" "year" =
        Except.ok ([b2020, b1999].filter (matchesB "02" "year")) ∧
      [b2020, b1999].filter (matchesB "02" "year") = [b2020] :=
  ⟨Or.inr (Or.inr rfl),
   c3_search_semantics ⟨[b2020, b1999], none⟩ "02" "year" (Or.inr (Or.inr rfl)),
   by decide⟩

/-- C4 (confirmed): removing an id that no record bears leaves the state
(books and file alike) unchanged and returns the not-found message — the
model is a total function, so nothing is raised — and a second `remove_book`
with an already-removed id reports not-found as well. -/
theorem c4_remove_missing :
    (∀ (s : Library) (book_id : Int),
      (s.books.all fun b => b.id != book_id) = true →
      remove_book s book_id = (s, "Книга с таким ID не найдена.")) ∧
    (∀ (s : Library) (book_id : Int),
      (remove_book (remove_book s book_id).1 book_id).2 =
        "Книга с таким ID не найдена.") := by
  have first : ∀ (s : Library) (book_id : Int),
      (s.books.all fun b => b.id != book_id) = true →
      remove_book s book_id = (s, "Книга с таким ID не найдена.") := by
    intro s book_id h
    have hfil : s.books.filter (fun b => b.id != book_id) = s.books :=
      List.filter_eq_self.mpr (List.all_eq_true.mp h)
    simp [remove_book, hfil]
  refine ⟨first, ?_⟩
  intro s book_id
  have hall : ((remove_book s book_id).1.books.all
      fun b => b.id != book_id) = true := by
    rw [remove_book_books s book_id]
    exact List.all_eq_true.mpr fun a ha => (List.mem_filter.mp ha).2
  rw [first _ book_id hall]

/-- C4 (witness): on a catalog whose only book has id 1, removing id 2
changes nothing and reports not-found, and removing id 1 twice reports
not-found the second time. -/
theorem c4_remove_witness :
    ([bOne].all fun b => b.id != 2) = true ∧
      remove_book ⟨[bOne], none⟩ 2 =
        (⟨[bOne], none⟩, "Книга с таким ID не найдена.") ∧
      (remove_book (remove_book ⟨[bOne], none⟩ 1).1 1).2 =
        "Книга с таким ID не найдена." :=
  ⟨by decide, c4_remove_missing.1 ⟨[bOne], none⟩ 2 (by decide),
   c4_remove_missing.2 ⟨[bOne], none⟩ 1⟩

/-- C5 (confirmed): persisting any catalog with `save_books` and loading the
resulting document with `load_books` succeeds, and the loaded raw records
read back — field for field and in order — as exactly the original books. -/
theorem c5_round_trip (s : Library) :
    ∃ rs, load_books (save_books s).file = Except.ok rs ∧
      rs.map RawBook.toBook = s.books.map some := by
  refine ⟨s.books.map rawOf, load_list_map s.books, ?_⟩
  have h : ∀ l : List Book, (l.map rawOf).map RawBook.toBook = l.map some := by
    intro l
    induction l with
    | nil => rfl
    | cons b r ih => simp only [List.map_cons, toBook_rawOf, ih]
  exact h s.books

/-- C6 (confirmed): when some record bears the id (sequence split as
`pre ++ b :: post` with no match in `pre`), `update_status` replaces exactly
that record's status, keeps its other fields, every other record and the
order, and persists the full snapshot; when no record bears the id, the
state is returned untouched (no persist) with the not-found message. -/
theorem c6_update_status_frame :
    (∀ (s : Library) (book_id : Int) (status : String) (pre : List Book)
      (b : Book) (post : List Book),
      s.books = pre ++ b :: post →
      (pre.all fun x => x.id != book_id) = true →
      b.id = book_id →
      update_status s book_id status =
        ({ books := pre ++ { b with status := status } :: post,
           file := some ((pre ++ { b with status := status } :: post).map
             Book.to_dict) },
         "Статус книги с ID " ++ toString book_id ++ " обновлён на \x27" ++
           status ++ "\x27.")) ∧
    (∀ (s : Library) (book_id : Int) (status : String),
      (s.books.all fun x => x.id != book_id) = true →
      update_status s book_id status = (s, "Книга с таким ID не найдена.")) :=
  ⟨fun s book_id status pre b post hs hpre hb =>
     update_status_found s book_id status pre b post hs hpre hb,
   fun s book_id status h => update_status_missing s book_id status h⟩

/-- First book of the C6 witness catalog. -/
def bA6 : Book := ⟨1, "T1", "A1", 2001, available⟩

/-- Second book of the C6 witness catalog. -/
def bB6 : Book := ⟨2, "T2", "A2", 2002, available⟩

/-- C6 (witness): on a two-book catalog, setting the status of id 2 to
"checked-out" changes only that record's status and persists the snapshot,
and id 5 reports not-found with nothing changed. -/
theorem c6_update_status_witness :
    (Library.books ⟨[bA6, bB6], none⟩ = [bA6] ++ bB6 :: []) ∧
    (([bA6].all fun x => x.id != 2) = true) ∧ bB6.id = 2 ∧
    update_status ⟨[bA6, bB6], none⟩ 2 checkedOut =
      ({ books := [bA6] ++ { bB6 with status := checkedOut } :: [],
         file := some (([bA6] ++ { bB6 with status := checkedOut } :: []).map
           Book.to_dict) },
       "Статус книги с ID " ++ toString (2 : Int) ++ " обновлён на \x27" ++
         checkedOut ++ "\x27.") ∧
    (([bA6, bB6].all fun x => x.id != 5) = true) ∧
    update_status ⟨[bA6, bB6], none⟩ 5 checkedOut =
      (⟨[bA6, bB6], none⟩, "Книга с таким ID не найдена.") :=
  ⟨rfl, by decide, rfl,
   c6_update_status_frame.1 ⟨[bA6, bB6], none⟩ 2 checkedOut [bA6] bB6 []
     rfl (by decide) rfl,
   by decide,
   c6_update_status_frame.2 ⟨[bA6, bB6], none⟩ 5 checkedOut (by decide)⟩

/-- C7 (confirmed): `add_book` appends exactly one record carrying the given
title, author and year, whose status is the "available" domain value, and
the subsequent `display_books` shows it at the end of the sequence. -/
theorem c7_create_available (s : Library) (t a : String) (y : Int) :
    ∃ b : Book, display_books (add_book s t a y).1 = display_books s ++ [b] ∧
      b.status = available ∧ b.title = t ∧ b.author = a ∧ b.year = y :=
  ⟨⟨next_id s.books, t, a, y, available⟩, rfl, rfl, rfl, rfl, rfl⟩

/-- Wrong-shape dict of the C8 counterexample: all five keys present but
`id` bound to a string. -/
def badShapeDict : Dict :=
  [("id", PyVal.str "oops"), ("title", PyVal.str "T"),
   ("author", PyVal.str "A"), ("year", PyVal.int 2020),
   ("status", PyVal.str "В наличии")]

/-- Dict missing the `year` key, used by the C8 witness. -/
def missingYearDict : Dict :=
  [("id", PyVal.int 1), ("title", PyVal.str "T"),
   ("author", PyVal.str "A"), ("status", PyVal.str "В наличии")]

/-- C8 (counterexample): a representation whose `id` field has the wrong
shape (a string) is not rejected — `from_dict` constructs the record,
storing the string id as-is. -/
theorem c8_wrong_shape_counterexample :
    Book.from_dict badShapeDict =
      Except.ok ⟨PyVal.str "oops", PyVal.str "T", PyVal.str "A",
        PyVal.int 2020, PyVal.str "В наличии"⟩ := rfl

/-- C8 (amended): `from_dict` fails exactly on a missing required field —
when all five keys are present it constructs a record from the raw values
with no shape check, and when some key is missing it fails with the
`KeyError` of a required key. -/
theorem c8_missing_field_fails :
    (∀ d : Dict, (requiredKeys.all fun k => exceptOk (dictGet d k)) = true →
      ∃ rb : RawBook, Book.from_dict d = Except.ok rb) ∧
    (∀ d : Dict, (requiredKeys.all fun k => exceptOk (dictGet d k)) = false →
      ∃ k, k ∈ requiredKeys ∧
        Book.from_dict d = Except.error ("KeyError: " ++ k)) := by
  constructor
  · intro d h
    simp only [requiredKeys, List.all_cons, List.all_nil, Bool.and_true,
      Bool.and_eq_true] at h
    obtain ⟨h1, h2, h3, h4, h5⟩ := h
    obtain ⟨v1, k1⟩ := exceptOk_ok _ h1
    obtain ⟨v2, k2⟩ := exceptOk_ok _ h2
    obtain ⟨v3, k3⟩ := exceptOk_ok _ h3
    obtain ⟨v4, k4⟩ := exceptOk_ok _ h4
    obtain ⟨v5, k5⟩ := exceptOk_ok _ h5
    refine ⟨⟨v1, v2, v3, v4, v5⟩, ?_⟩
    unfold Book.from_dict
    rw [k1, k2, k3, k4, k5]
  · intro d h
    rcases k1 : dictGet d "id" with e1 | v1
    · refine ⟨"id", by simp [requiredKeys], ?_⟩
      unfold Book.from_dict
      rw [k1, dictGet_error d "id" e1 k1]
    rcases k2 : dictGet d "title" with e2 | v2
    · refine ⟨"title", by simp [requiredKeys], ?_⟩
      unfold Book.from_dict
      rw [k1, k2, dictGet_error d "title" e2 k2]
    rcases k3 : dictGet d "author" with e3 | v3
    · refine ⟨"author", by simp [requiredKeys], ?_⟩
      unfold Book.from_dict
      rw [k1, k2, k3, dictGet_error d "author" e3 k3]
    rcases k4 : dictGet d "year" with e4 | v4
    · refine ⟨"year", by simp [requiredKeys], ?_⟩
      unfold Book.from_dict
      rw [k1, k2, k3, k4, dictGet_error d "year" e4 k4]
    rcases k5 : dictGet d "status" with e5 | v5
    · refine ⟨"status", by simp [requiredKeys], ?_⟩
      unfold Book.from_dict
      rw [k1, k2, k3, k4, k5, dictGet_error d "status" e5 k5]
    exfalso
    simp [requiredKeys, k1, k2, k3, k4, k5, exceptOk] at h

/-- C8 (witness): the amended theorem at a fully-keyed dict (accepted despite
its string id) and at a dict missing the `year` key (rejected). -/
theorem c8_missing_field_witness :
    ((requiredKeys.all fun k => exceptOk (dictGet badShapeDict k)) = true ∧
      ∃ rb, Book.from_dict badShapeDict = Except.ok rb) ∧
    ((requiredKeys.all fun k => exceptOk (dictGet missingYearDict k)) = false ∧
      ∃ k, k ∈ requiredKeys ∧
        Book.from_dict missingYearDict = Except.error ("KeyError: " ++ k)) :=
  ⟨⟨by decide, c8_missing_field_fails.1 badShapeDict (by decide)⟩,
   ⟨by decide, c8_missing_field_fails.2 missingYearDict (by decide)⟩⟩

/-- Catalog of the C9 theorems: one checked-out book with id 1. -/
def lib9 : Library := ⟨[⟨1, "T", "A", 2000, checkedOut⟩], none⟩

/-- C9 (counterexample): the catalog silently accepts out-of-domain input and
misbehaves — `update_status` stores the out-of-domain status "junk" verbatim
and reports success, and `search_books` silently accepts the out-of-domain
field selector "status", returning a match none of the three in-domain
selectors produces. -/
theorem c9_counterexample :
    (update_status lib9 1 "junk").1.books = [⟨1, "T", "A", 2000, "junk"⟩] ∧
    (update_status lib9 1 "junk").2 =
      "Статус книги с ID 1 обновлён на \x27junk\x27." ∧
    "junk" ≠ available ∧ "junk" ≠ checkedOut ∧
    search_books lib9 "ыдана" "status" = Except.ok lib9.books ∧
    search_books lib9 "ыдана" "title" = Except.ok [] ∧
    search_books lib9 "ыдана" "author" = Except.ok [] ∧
    search_books lib9 "ыдана" "year" = Except.ok [] :=
  ⟨by decide, by decide, by decide, by decide, rfl, rfl, rfl, rfl⟩

/-- C9 (amended): the catalog performs no defensive validation —
`update_status` stores any status string verbatim on the first id match and
persists it, and `search_books` silently evaluates the out-of-domain
selectors "status" and "id", filtering on those attributes instead of
rejecting them (no `InvalidFieldError` / `InvalidStatusError` exists in the
program). -/
theorem c9_no_validation :
    (∀ (s : Library) (book_id : Int) (status : String) (pre : List Book)
      (b : Book) (post : List Book),
      s.books = pre ++ b :: post →
      (pre.all fun x => x.id != book_id) = true →
      b.id = book_id →
      (update_status s book_id status).1.books =
        pre ++ { b with status := status } :: post) ∧
    (∀ (s : Library) (query : String),
      search_books s query "status" =
        Except.ok (s.books.filter (matchesB query "status"))) ∧
    (∀ (s : Library) (query : String),
      search_books s query "id" =
        Except.ok (s.books.filter (matchesB query "id"))) := by
  refine ⟨?_, ?_, ?_⟩
  · intro s book_id status pre b post hs hpre hb
    rw [update_status_found s book_id status pre b post hs hpre hb]
  · intro s query
    exact search_filter_valid query "status"
      (Or.inr (Or.inr (Or.inr (Or.inr rfl)))) s.books
  · intro s query
    exact search_filter_valid query "id" (Or.inl rfl) s.books

/-- C9 (witness): the amended theorem at concrete inputs — status "junk"
stored verbatim on id 1, selectors "status" and "id" silently searched,
the latter evaluated to show the id-1 book matching query "1". -/
theorem c9_no_validation_witness :
    ((lib9.books = [] ++ (⟨1, "T", "A", 2000, checkedOut⟩ : Book) :: []) ∧
      (([] : List Book).all fun x => x.id != 1) = true ∧
      (⟨1, "T", "A", 2000, checkedOut⟩ : Book).id = 1 ∧
      (update_status lib9 1 "junk").1.books =
        [] ++ (⟨1, "T", "A", 2000, "junk"⟩ : Book) :: []) ∧
    search_books lib9 "ыдана" "status" =
      Except.ok (lib9.books.filter (matchesB "ыдана" "status")) ∧
    search_books lib9 "1" "id" =
      Except.ok (lib9.books.filter (matchesB "1" "id")) ∧
    lib9.books.filter (matchesB "1" "id") = lib9.books :=
  ⟨⟨rfl, rfl, rfl,
    c9_no_validation.1 lib9 1 "junk" [] ⟨1, "T", "A", 2000, checkedOut⟩ []
      rfl rfl rfl⟩,
   c9_no_validation.2.1 lib9 "ыдана",
   c9_no_validation.2.2 lib9 "1",
   by decide⟩

/-- Catalog as loaded from persisted data carrying duplicate id 1, used by
the C10 witness. -/
def libDup : Library :=
  ⟨[⟨1, "T1", "A1", 2000, available⟩, ⟨1, "T2", "A2", 2001, available⟩,
    ⟨2, "T3", "A3", 2002, available⟩], none⟩

/-- C10 (confirmed): `remove_book` keeps exactly the books whose id differs
from the given one — so one call deletes every record bearing a duplicated
id — while `update_status` rewrites only the first record bearing the id,
leaving later duplicates untouched. -/
theorem c10_duplicates :
    (∀ (s : Library) (book_id : Int),
      (remove_book s book_id).1.books =
        s.books.filter fun b => b.id != book_id) ∧
    (∀ (s : Library) (book_id : Int) (status : String) (pre : List Book)
      (b : Book) (post : List Book),
      s.books = pre ++ b :: post →
      (pre.all fun x => x.id != book_id) = true →
      b.id = book_id →
      (update_status s book_id status).1.books =
        pre ++ { b with status := status } :: post) := by
  refine ⟨remove_book_books, ?_⟩
  intro s book_id status pre b post hs hpre hb
  rw [update_status_found s book_id status pre b post hs hpre hb]

/-- C10 (witness): on a catalog holding two books with id 1, one
`remove_book` call deletes both, while `update_status` changes only the
first of them. -/
theorem c10_duplicates_witness :
    (remove_book libDup 1).1.books =
      libDup.books.filter (fun b => b.id != 1) ∧
    libDup.books.filter (fun b => b.id != 1) =
      [⟨2, "T3", "A3", 2002, available⟩] ∧
    (libDup.books = [] ++ (⟨1, "T1", "A1", 2000, available⟩ : Book) ::
      [⟨1, "T2", "A2", 2001, available⟩, ⟨2, "T3", "A3", 2002, available⟩]) ∧
    (update_status libDup 1 checkedOut).1.books =
      [] ++ (⟨1, "T1", "A1", 2000, checkedOut⟩ : Book) ::
        [⟨1, "T2", "A2", 2001, available⟩, ⟨2, "T3", "A3", 2002, available⟩] :=
  ⟨c10_duplicates.1 libDup 1, by decide, rfl,
   c10_duplicates.2 libDup 1 checkedOut [] ⟨1, "T1", "A1", 2000, available⟩
     [⟨1, "T2", "A2", 2001, available⟩, ⟨2, "T3", "A3", 2002, available⟩]
     rfl rfl rfl⟩

end Effmob
